import Mathlib

/-!
Verification of the TopLogger climbs analysis pipeline (`src/main.py`).

The pipeline has two stages: a cache loader (`_load_pickle` / `_save_df_to_pickle`,
used by `_load_climbs` and `_load_dates_grades`) and an interval expander
(`_load_dates_grades` together with `_routes_avail_per_day`).

Shallow embedding conventions:
* timestamps are natural numbers counting seconds (the source stores
  `datetime64[s]`, i.e. second precision); one day is `86400` seconds;
* a pandas DataFrame of climbs is a `List RawClimb`; nullable columns are
  `Option`-valued (pandas `NaN` / `NaT` is `none`);
* a pandas boolean-mask filter `df[df.col <= x]` keeps exactly the rows whose
  comparison evaluates to `True`; a comparison against `NaN`/`NaT` is `False`,
  which the `series_le` / `series_ge` helpers reproduce;
* `Series.count()` counts the non-null entries of a column.
-/

/-- One row of the climbs DataFrame as produced by
`pd.DataFrame.from_dict(requests.get(URL_CLIMBS).json())` in `_load_climbs`
(src/main.py line 78): an identifier, a numeric grade, and the two
availability timestamps.  Every field that pandas can hold as `NaN`/`NaT`
is `Option`-valued. -/
structure RawClimb where
  id : Option Nat
  grade : Rat
  date_live_start : Option Nat
  date_live_end : Option Nat
  deriving DecidableEq, Repr

/-- Seconds in one calendar day; `freq='D'` steps of `pd.date_range`. -/
def DAY : Nat := 86400

/-- Pandas semantics of `series <= x` used as a boolean row mask
(src/main.py line 56): a null entry compares as `False`. -/
def series_le (a : Option Nat) (x : Nat) : Bool :=
  match a with
  | some v => v ≤ x
  | none => false

/-- Pandas semantics of `series >= x` used as a boolean row mask
(src/main.py line 57): a null entry compares as `False`. -/
def series_ge (a : Option Nat) (x : Nat) : Bool :=
  match a with
  | some v => x ≤ v
  | none => false

/-- `PlotClimbs._routes_avail_per_day` (src/main.py lines 52-58): filter the
climbs table by grade equality, then by `date_live_start <= date`, then by
`date_live_end >= date`, and return `df_tmp.id.count()` — the number of
NON-NULL `id` entries among the remaining rows. -/
def routes_avail_per_day (climbs : List RawClimb) (dg : Nat × Rat) : Nat :=
  let df1 := climbs.filter (fun c => c.grade == dg.2)
  let df2 := df1.filter (fun c => series_le c.date_live_start dg.1)
  let df3 := df2.filter (fun c => series_ge c.date_live_end dg.1)
  df3.countP (fun c => c.id.isSome)

/-- The non-null `date_live_start` values of the table
(`self.climbs.date_live_start.dropna()`, src/main.py lines 93-94). -/
def live_starts (climbs : List RawClimb) : List Nat :=
  climbs.filterMap (fun c => c.date_live_start)

/-- `pd.date_range(dmin, dmax, freq='D')` (src/main.py line 96): the
timestamps `dmin + k * DAY` for `k = 0, 1, ...` that do not exceed `dmax`.
`date_range` anchors every element at `dmin`; it does not round to
midnight (pandas default `normalize=False`). Empty when `dmax < dmin`. -/
def date_range (dmin dmax : Nat) : List Nat :=
  if dmin ≤ dmax then
    (List.range ((dmax - dmin) / DAY + 1)).map (fun k => dmin + k * DAY)
  else []

/-- Insert a grade into an already sorted list, keeping it sorted: the
building block of the model of Python's `sorted`. -/
def insert_sorted (a : Rat) : List Rat → List Rat
  | [] => [a]
  | b :: l => if a ≤ b then a :: b :: l else b :: insert_sorted a l

/-- Python's `sorted` on a list of grades (ascending insertion sort). -/
def sort_grades (l : List Rat) : List Rat := l.foldr insert_sorted []

/-- `pd.Series(sorted(self.climbs.grade.unique()))` (src/main.py line 98):
the distinct grade values of the table, sorted ascending. -/
def grades_axis (climbs : List RawClimb) : List Rat :=
  sort_grades ((climbs.map (fun c => c.grade)).dedup)

/-- The date axis of `_load_dates_grades`: `pd.date_range` between the
minimum and maximum non-null `date_live_start` (src/main.py lines 93-96).
The source raises on an empty table (min of an empty series is `NaN`);
the claims considered here never touch that case, so it is mapped to `[]`. -/
def date_axis (climbs : List RawClimb) : List Nat :=
  match (live_starts climbs).min?, (live_starts climbs).max? with
  | some dmin, some dmax => date_range dmin dmax
  | _, _ => []

/-- One row of the expanded table: the `date` and `grade` key columns of the
cross product plus the appended `count` column (src/main.py lines 100-104). -/
structure Cell where
  date : Nat
  grade : Rat
  count : Nat
  deriving DecidableEq, Repr

/-- The cross product `df_dates.merge(grades, how='cross')`
(src/main.py line 100): every date of the axis paired with every grade,
date-major as pandas produces it. -/
def dates_grades_index (climbs : List RawClimb) : List (Nat × Rat) :=
  (date_axis climbs).flatMap (fun d => (grades_axis climbs).map (fun g => (d, g)))

/-- The miss path of `PlotClimbs._load_dates_grades` (src/main.py lines
93-109): build the cross product of the date axis and the grade axis, apply
`_routes_avail_per_day` to every row, and attach the result as the `count`
column. -/
def load_dates_grades (climbs : List RawClimb) : List Cell :=
  (dates_grades_index climbs).map
    (fun dg => ⟨dg.1, dg.2, routes_avail_per_day climbs dg⟩)

/-- Line 82 of src/main.py applied to one row:
`df.loc[df.date_live_end.isna(), 'date_live_end'] = datetime.today()` —
a null `date_live_end` becomes the current wall-clock time `now`, a
non-null one is kept. -/
def fill_live_end (now : Nat) (r : RawClimb) : RawClimb :=
  { r with date_live_end := some (r.date_live_end.getD now) }

/-- The normalizer inside the fetch path of `PlotClimbs._load_climbs`
(src/main.py lines 80-83): parse timestamps (already reflected in the
`Option Nat` fields), replace null `date_live_end` by `now`
(line 82), then `df.dropna(subset=['date_live_start'])` (line 83). -/
def load_climbs_normalize (now : Nat) (rows : List RawClimb) : List RawClimb :=
  (rows.map (fill_live_end now)).filter (fun r => r.date_live_start.isSome)

/-- `PlotClimbs._load_pickle` (src/main.py lines 111-122).  The persisted
cache entry is `Option (value × mtime)` (`none` when the file does not
exist); `now - mtime` is the `age` computed on line 117; the entry is
returned when the file exists and `age_max is None or age < age_max`
(line 118), and `none` is returned otherwise (the Python function falls
through and implicitly returns `None`). -/
def load_pickle {α : Type} (now : Int) (entry : Option (α × Int))
    (age_max : Option Int) : Option α :=
  match entry with
  | some vm => if age_max.all (fun m => decide (now - vm.2 < m)) then some vm.1 else none
  | none => none

/-- Result of one fetch-or-cache load (the pattern of `_load_climbs` and
`_load_dates_grades`, src/main.py lines 73-87 and 89-109): the returned
table, the cache entry afterwards, and instrumentation counting the
fetch-function invocations, the `pd.read_pickle` deserialisations, and the
`_save_df_to_pickle` writes performed. -/
structure LoadResult (α : Type) where
  value : α
  entry_after : Option (α × Int)
  fetch_calls : Nat
  reads : Nat
  writes : Nat
  deriving DecidableEq, Repr

/-- The fetch-or-cache combinator implemented identically by
`_load_climbs` and `_load_dates_grades` (src/main.py lines 73-87, 89-109):
if `_load_pickle` returns a table, return it (one `pd.read_pickle`, no
fetch, no write); otherwise invoke the fetch function once, persist the
result with `_save_df_to_pickle` (lines 124-127; overwriting any prior
entry, the new file's mtime being `now`), and return it. -/
def cache_load {α : Type} (now : Int) (entry : Option (α × Int))
    (age_max : Option Int) (fetch_fn : α) : LoadResult α :=
  match load_pickle now entry age_max with
  | some v => ⟨v, entry, 0, 1, 0⟩
  | none => ⟨fetch_fn, some (fetch_fn, now), 1, 0, 1⟩

/-- Observable cache / network events of one run of `PlotClimbs().main()`. -/
inductive Event where
  /-- `_load_pickle` consults the raw-climbs cache (existence + age check). -/
  | raw_cache_check
  /-- `pd.read_pickle` of the fresh raw-climbs cache file. -/
  | raw_cache_read
  /-- `requests.get(URL_CLIMBS)` — the network fetch of raw climbs. -/
  | raw_fetch
  /-- `_save_df_to_pickle` of the raw climbs table. -/
  | raw_cache_write
  /-- `_load_pickle` consults the derived dates-grades cache. -/
  | derived_cache_check
  /-- `pd.read_pickle` of the fresh dates-grades cache file. -/
  | derived_cache_read
  /-- The cross-product expansion is computed from `self.climbs`. -/
  | derived_compute
  /-- `_save_df_to_pickle` of the dates-grades table. -/
  | derived_cache_write
  deriving DecidableEq, Repr

/-- `timedelta(days=10)` in seconds: the `age_max` passed to `_load_pickle`
by both `_load_climbs` (line 74) and `_load_dates_grades` (line 90). -/
def AGE_MAX_10_DAYS : Int := 10 * 86400

/-- The persisted state and environment a run starts from: wall-clock time,
the two cache files (value and mtime, `none` if absent), and the rows the
remote API would return. -/
structure RunInput where
  now : Int
  raw_entry : Option (List RawClimb × Int)
  derived_entry : Option (List Cell × Int)
  api_rows : List RawClimb

/-- Event trace of `_load_climbs` (src/main.py lines 73-87), which
`PlotClimbs.__init__` (line 23) runs unconditionally before `main`. -/
def load_climbs_events (i : RunInput) : List Event :=
  Event.raw_cache_check ::
    match load_pickle i.now i.raw_entry (some AGE_MAX_10_DAYS) with
    | some _ => [Event.raw_cache_read]
    | none => [Event.raw_fetch, Event.raw_cache_write]

/-- Event trace of `_load_dates_grades` (src/main.py lines 89-109), run by
`main` → `_climbs_grades` (lines 26-34) after `__init__` finished. -/
def load_dates_grades_events (i : RunInput) : List Event :=
  Event.derived_cache_check ::
    match load_pickle i.now i.derived_entry (some AGE_MAX_10_DAYS) with
    | some _ => [Event.derived_cache_read]
    | none => [Event.derived_compute, Event.derived_cache_write]

/-- The event trace of one run `PlotClimbs().main()`: `__init__` performs
the raw-climbs load (line 23), then `main` performs the dates-grades load
(lines 26-34 → 89-91). -/
def run_trace (i : RunInput) : List Event :=
  load_climbs_events i ++ load_dates_grades_events i

/-- `_routes_avail_per_day` with the object state (`self.climbs`) threaded
explicitly: the method only filters and reads `self.climbs` (src/main.py
lines 52-58 contain no assignment to `self.climbs`), so the state it hands
back is the state it received. -/
def routes_avail_per_day_st (s : List RawClimb) (dg : Nat × Rat) :
    Nat × List RawClimb :=
  (routes_avail_per_day s dg, s)

/-- One iteration of the `df.apply(self._routes_avail_per_day, ...)` loop
(src/main.py line 102) with the object state threaded: evaluate the current
row against the state left by the previous iterations, append the produced
count, and hand the state on. -/
def apply_step (acc : List Nat × List RawClimb) (dg : Nat × Rat) :
    List Nat × List RawClimb :=
  (acc.1 ++ [(routes_avail_per_day_st acc.2 dg).1], (routes_avail_per_day_st acc.2 dg).2)

/-- The miss path of `_load_dates_grades` with the object state threaded
through the `df.apply` loop (src/main.py line 102): each row evaluation
receives the state left by the previous one, the produced counts are
collected into the appended `count` column (line 104). -/
def load_dates_grades_st (s : List RawClimb) : List Cell × List RawClimb :=
  match (live_starts s).min?, (live_starts s).max? with
  | some dmin, some dmax =>
    let rows := (date_range dmin dmax).flatMap
      (fun d => (grades_axis s).map (fun g => (d, g)))
    let folded := rows.foldl apply_step ([], s)
    ((rows.zip folded.1).map (fun p => ⟨p.1.1, p.1.2, p.2⟩), folded.2)
  | _, _ => ([], s)

example : routes_avail_per_day [⟨some 1, 5, some 0, some (2 * DAY)⟩] (DAY, 5) = 1 := by
  decide

example : load_dates_grades [⟨some 1, 5, some 0, some (2 * DAY)⟩, ⟨some 2, 5, some DAY, some DAY⟩] =
    [⟨0, 5, 1⟩, ⟨DAY, 5, 2⟩] := by decide

example : load_dates_grades_st [⟨some 1, 5, some 0, some (2 * DAY)⟩, ⟨some 2, 5, some DAY, some DAY⟩] =
    ([⟨0, 5, 1⟩, ⟨DAY, 5, 2⟩], [⟨some 1, 5, some 0, some (2 * DAY)⟩, ⟨some 2, 5, some DAY, some DAY⟩]) := by decide

example : load_climbs_normalize 99 [⟨some 1, 5, some 3, none⟩, ⟨some 2, 6, none, some 7⟩] =
    [⟨some 1, 5, some 3, some 99⟩] := by decide

example : cache_load 100 (some (42, 95)) (some 10) 7 = ⟨42, some (42, 95), 0, 1, 0⟩ := by decide

example : cache_load 100 (some (42, 85)) (some 10) 7 = ⟨7, some (7, 100), 1, 0, 1⟩ := by decide

example : cache_load 100 (some (42, 1)) (none : Option Int) 7 = ⟨42, some (42, 1), 0, 1, 0⟩ := by decide

/-! Helper lemmas about the embedded operations. -/

/-- A row passes all three masks of `_routes_avail_per_day` and the final
non-null-id count exactly when this single combined predicate holds. -/
def matches_cell (d : Nat) (g : Rat) (c : RawClimb) : Bool :=
  c.grade == g && series_le c.date_live_start d && series_ge c.date_live_end d

theorem routes_avail_eq_length_filter (climbs : List RawClimb) (d : Nat) (g : Rat) :
    routes_avail_per_day climbs (d, g) =
      (climbs.filter (fun c => matches_cell d g c && c.id.isSome)).length := by
  unfold routes_avail_per_day matches_cell
  simp only [List.countP_eq_length_filter, List.filter_filter]
  refine congrArg List.length (List.filter_congr ?_)
  intro c _
  cases c.grade == g <;> cases series_le c.date_live_start d <;>
    cases series_ge c.date_live_end d <;> cases c.id.isSome <;> rfl

theorem routes_avail_eq_countP (climbs : List RawClimb) (d : Nat) (g : Rat) :
    routes_avail_per_day climbs (d, g) =
      (climbs.filter (matches_cell d g)).countP (fun c => c.id.isSome) := by
  unfold routes_avail_per_day matches_cell
  simp only [List.countP_eq_length_filter, List.filter_filter]
  refine congrArg List.length (List.filter_congr ?_)
  intro c _
  cases c.grade == g <;> cases series_le c.date_live_start d <;>
    cases series_ge c.date_live_end d <;> cases c.id.isSome <;> rfl

theorem length_insert_sorted (a : Rat) (l : List Rat) :
    (insert_sorted a l).length = l.length + 1 := by
  induction l with
  | nil => rfl
  | cons b l ih =>
    unfold insert_sorted
    by_cases h : a ≤ b <;> simp [h, ih]

theorem length_sort_grades (l : List Rat) : (sort_grades l).length = l.length := by
  induction l with
  | nil => rfl
  | cons a l ih => simp [sort_grades, List.foldr] at ih ⊢; simp [length_insert_sorted, ih]

theorem length_grades_axis (climbs : List RawClimb) :
    (grades_axis climbs).length = (climbs.map (fun c => c.grade)).toFinset.card := by
  simp [grades_axis, length_sort_grades, List.card_toFinset]

theorem length_date_range (dmin dmax : Nat) (h : dmin ≤ dmax) :
    (date_range dmin dmax).length = (dmax - dmin) / DAY + 1 := by
  simp [date_range, h]

theorem length_flatMap_const {α β γ : Type} (l : List α) (m : List β) (f : α → β → γ) :
    (l.flatMap (fun a => m.map (f a))).length = l.length * m.length := by
  induction l with
  | nil => simp
  | cons a l ih => simp [List.flatMap_cons, ih, Nat.succ_mul, Nat.add_comm]

theorem nat_min?_eq_some_iff {l : List Nat} {a : Nat} :
    l.min? = some a ↔ a ∈ l ∧ ∀ b, b ∈ l → a ≤ b :=
  List.min?_eq_some_iff (fun x => Nat.le_refl x)
    (fun x y => min_choice x y) (fun _ _ _ => le_min_iff)

theorem nat_max?_eq_some_iff {l : List Nat} {a : Nat} :
    l.max? = some a ↔ a ∈ l ∧ ∀ b ∈ l, b ≤ a :=
  List.max?_eq_some_iff (fun x => Nat.le_refl x)
    (fun x y => max_choice x y) (fun _ _ _ => max_le_iff)

theorem min?_le_max? {l : List Nat} {a b : Nat} (ha : l.min? = some a)
    (hb : l.max? = some b) : a ≤ b :=
  (nat_min?_eq_some_iff.mp ha).2 b (nat_max?_eq_some_iff.mp hb).1

/-! Claim theorems. -/

/-- Claim C8 (confirmed): for every (date, grade) cell, the cell count is the
count of non-null `id` values among the rows matching the cell's grade and
interval — not the number of matching rows — so a matching record whose `id`
is null is excluded and leaves the count unchanged. -/
theorem null_id_exclusion :
    ∀ (climbs : List RawClimb) (d : Nat) (g : Rat),
      routes_avail_per_day climbs (d, g) =
        (climbs.filter (matches_cell d g)).countP (fun c => c.id.isSome)
      ∧ ∀ c : RawClimb, matches_cell d g c = true → c.id = none →
          routes_avail_per_day (c :: climbs) (d, g) =
            routes_avail_per_day climbs (d, g) := by
  intro climbs d g
  refine ⟨routes_avail_eq_countP climbs d g, ?_⟩
  intro c hc hid
  rw [routes_avail_eq_countP, routes_avail_eq_countP, List.filter_cons_of_pos hc,
    List.countP_cons_of_neg]
  simp [hid]

/-- Witness for C8 at a concrete table: a record with grade 7, interval
[2, 5] containing date 3, but null `id`, does not change the count. -/
theorem null_id_exclusion_witness :
    routes_avail_per_day [⟨none, 7, some 2, some 5⟩, ⟨some 3, 7, some 1, some 9⟩] (3, 7) =
      routes_avail_per_day [⟨some 3, 7, some 1, some 9⟩] (3, 7) :=
  (null_id_exclusion [⟨some 3, 7, some 1, some 9⟩] 3 7).2
    ⟨none, 7, some 2, some 5⟩ (by decide) rfl

/-- Claim C4 (confirmed): every row of the normalizer's output has non-null
`date_live_start` and `date_live_end`; the output is exactly the input rows
with non-null `date_live_start`, each with a null `date_live_end` replaced by
the current wall-clock time `now`; rows with null `date_live_start` never
appear in the output. -/
theorem load_climbs_normalize_postcondition :
    ∀ (now : Nat) (rows : List RawClimb),
      (∀ r ∈ load_climbs_normalize now rows,
        r.date_live_start.isSome ∧ r.date_live_end.isSome)
      ∧ load_climbs_normalize now rows =
          (rows.filter (fun r => r.date_live_start.isSome)).map (fill_live_end now)
      ∧ (∀ r ∈ rows, r.date_live_start.isSome → r.date_live_end = none →
          fill_live_end now r ∈ load_climbs_normalize now rows ∧
            (fill_live_end now r).date_live_end = some now)
      ∧ (∀ r ∈ rows, r.date_live_start = none →
          fill_live_end now r ∉ load_climbs_normalize now rows) := by
  intro now rows
  have hstart : ∀ r : RawClimb, (fill_live_end now r).date_live_start = r.date_live_start :=
    fun r => rfl
  have hchar : load_climbs_normalize now rows =
      (rows.filter (fun r => r.date_live_start.isSome)).map (fill_live_end now) := by
    unfold load_climbs_normalize
    rw [List.filter_map]
    rfl
  have hmem : ∀ r ∈ load_climbs_normalize now rows,
      r.date_live_start.isSome ∧ r.date_live_end.isSome := by
    intro r hr
    rw [hchar] at hr
    obtain ⟨r₀, hr₀, rfl⟩ := List.mem_map.mp hr
    refine ⟨?_, by simp [fill_live_end]⟩
    rw [hstart]
    exact (List.mem_filter.mp hr₀).2
  refine ⟨hmem, hchar, ?_, ?_⟩
  · intro r hr hstart₀ hend₀
    refine ⟨?_, by simp [fill_live_end, hend₀]⟩
    rw [hchar]
    exact List.mem_map_of_mem _ (List.mem_filter.mpr ⟨hr, hstart₀⟩)
  · intro r hr hnone hcontra
    have := (hmem _ hcontra).1
    rw [hstart, hnone] at this
    simp at this

/-- Witness for C4 at `now = 99` on a two-row table: the row with null
`date_live_end` is kept with `date_live_end = 99`, and the row with null
`date_live_start` is dropped. -/
theorem load_climbs_normalize_postcondition_witness :
    (fill_live_end 99 ⟨some 1, 5, some 3, none⟩ ∈
        load_climbs_normalize 99 [⟨some 1, 5, some 3, none⟩, ⟨some 2, 6, none, some 7⟩] ∧
      (fill_live_end 99 (⟨some 1, 5, some 3, none⟩ : RawClimb)).date_live_end = some 99) ∧
    fill_live_end 99 ⟨some 2, 6, none, some 7⟩ ∉
      load_climbs_normalize 99 [⟨some 1, 5, some 3, none⟩, ⟨some 2, 6, none, some 7⟩] :=
  ⟨(load_climbs_normalize_postcondition 99
      [⟨some 1, 5, some 3, none⟩, ⟨some 2, 6, none, some 7⟩]).2.2.1
      ⟨some 1, 5, some 3, none⟩ (by decide) rfl rfl,
    (load_climbs_normalize_postcondition 99
      [⟨some 1, 5, some 3, none⟩, ⟨some 2, 6, none, some 7⟩]).2.2.2
      ⟨some 2, 6, none, some 7⟩ (by decide) rfl⟩

/-- Claim C5 (confirmed): if a persisted entry exists and its age
`now - mtime` is strictly below `max_age`, the load returns the deserialized
entry without invoking the fetch function; with `max_age = None` any existing
entry is returned regardless of age; otherwise the fetch function is invoked
and its result is persisted at the key (overwriting any prior entry, with the
new modification time `now`) and returned. -/
theorem cache_load_contract :
    ∀ (α : Type) (now : Int) (entry : Option (α × Int)) (age_max : Option Int)
      (fetch_fn : α),
      (∀ v m, entry = some (v, m) →
        (∀ x, age_max = some x → now - m < x →
          cache_load now entry age_max fetch_fn = ⟨v, entry, 0, 1, 0⟩)
        ∧ (age_max = none → cache_load now entry age_max fetch_fn = ⟨v, entry, 0, 1, 0⟩)
        ∧ (∀ x, age_max = some x → ¬(now - m < x) →
          cache_load now entry age_max fetch_fn = ⟨fetch_fn, some (fetch_fn, now), 1, 0, 1⟩))
      ∧ (entry = none →
          cache_load now entry age_max fetch_fn = ⟨fetch_fn, some (fetch_fn, now), 1, 0, 1⟩) := by
  intro α now entry age_max fetch_fn
  constructor
  · rintro v m rfl
    refine ⟨?_, ?_, ?_⟩
    · rintro x rfl hfresh
      simp [cache_load, load_pickle, hfresh]
    · rintro rfl
      simp [cache_load, load_pickle]
    · rintro x rfl hstale
      simp [cache_load, load_pickle, hstale]
  · rintro rfl
    simp [cache_load, load_pickle]

/-- Witness for C5: a fresh entry (age `5 < 10`) is returned as-is, a stale
entry (age `15 ≥ 10`) is replaced by the fetched value, and with
`max_age = None` an arbitrarily old entry is still returned. -/
theorem cache_load_contract_witness :
    cache_load 100 (some (42, 95)) (some 10) 7 = ⟨42, some (42, 95), 0, 1, 0⟩ ∧
    cache_load 100 (some (42, 85)) (some 10) 7 = ⟨7, some (7, 100), 1, 0, 1⟩ ∧
    cache_load 100 (some (42, 1)) (none : Option Int) 7 = ⟨42, some (42, 1), 0, 1, 0⟩ ∧
    cache_load 100 (none : Option (Nat × Int)) (some 10) 7 = ⟨7, some (7, 100), 1, 0, 1⟩ :=
  ⟨((cache_load_contract Nat 100 (some (42, 95)) (some 10) 7).1 42 95 rfl).1 10 rfl (by decide),
    ((cache_load_contract Nat 100 (some (42, 85)) (some 10) 7).1 42 85 rfl).2.2 10 rfl (by decide),
    ((cache_load_contract Nat 100 (some (42, 1)) none 7).1 42 1 rfl).2.1 rfl,
    (cache_load_contract Nat 100 none (some 10) 7).2 rfl⟩

/-- Claim C6 (confirmed): the cache-miss path of a load performs exactly one
fetch-function invocation and exactly one persisted write (and no
deserialisation read), while the cache-hit path performs exactly one read,
zero fetch-function invocations and zero writes. -/
theorem cache_load_side_effect_counts :
    ∀ (α : Type) (now : Int) (entry : Option (α × Int)) (age_max : Option Int)
      (fetch_fn : α),
      (load_pickle now entry age_max = none →
        (cache_load now entry age_max fetch_fn).fetch_calls = 1 ∧
        (cache_load now entry age_max fetch_fn).writes = 1 ∧
        (cache_load now entry age_max fetch_fn).reads = 0)
      ∧ (∀ v, load_pickle now entry age_max = some v →
        (cache_load now entry age_max fetch_fn).reads = 1 ∧
        (cache_load now entry age_max fetch_fn).fetch_calls = 0 ∧
        (cache_load now entry age_max fetch_fn).writes = 0) := by
  intro α now entry age_max fetch_fn
  constructor
  · intro hmiss
    simp [cache_load, hmiss]
  · intro v hhit
    simp [cache_load, hhit]

/-- Witness for C6: concrete miss (absent entry) and hit (entry of age 5
against limit 10) loads have the stated effect counts. -/
theorem cache_load_side_effect_counts_witness :
    ((cache_load 100 (none : Option (Nat × Int)) (some 10) 7).fetch_calls = 1 ∧
      (cache_load 100 (none : Option (Nat × Int)) (some 10) 7).writes = 1 ∧
      (cache_load 100 (none : Option (Nat × Int)) (some 10) 7).reads = 0) ∧
    ((cache_load 100 (some (42, 95)) (some 10) 7).reads = 1 ∧
      (cache_load 100 (some (42, 95)) (some 10) 7).fetch_calls = 0 ∧
      (cache_load 100 (some (42, 95)) (some 10) 7).writes = 0) :=
  ⟨(cache_load_side_effect_counts Nat 100 none (some 10) 7).1 rfl,
    (cache_load_side_effect_counts Nat 100 (some (42, 95)) (some 10) 7).2 42 rfl⟩

/-- Claim C9 (confirmed): the run trace is the raw-climbs load events
followed by the dates-grades load events; every event before the derived
cache is first consulted is a raw-table event; and whenever the raw cache
misses, the raw fetch occurs — with no assumption on the derived cache entry,
so a fresh derived cache does not prevent the raw fetch. -/
theorem eager_raw_load_before_derived :
    ∀ i : RunInput,
      run_trace i = load_climbs_events i ++ load_dates_grades_events i
      ∧ (∀ e ∈ load_climbs_events i,
          e = Event.raw_cache_check ∨ e = Event.raw_cache_read ∨
          e = Event.raw_fetch ∨ e = Event.raw_cache_write)
      ∧ (load_dates_grades_events i).head? = some Event.derived_cache_check
      ∧ (load_pickle i.now i.raw_entry (some AGE_MAX_10_DAYS) = (none : Option (List RawClimb)) →
          Event.raw_fetch ∈ load_climbs_events i) := by
  intro i
  refine ⟨rfl, ?_, rfl, ?_⟩
  · intro e he
    unfold load_climbs_events at he
    cases hl : load_pickle i.now i.raw_entry (some AGE_MAX_10_DAYS) with
    | none =>
      rw [hl] at he
      simp at he
      rcases he with h | h | h <;> simp [h]
    | some v =>
      rw [hl] at he
      simp at he
      rcases he with h | h <;> simp [h]
  · intro hmiss
    unfold load_climbs_events
    rw [hmiss]
    simp

/-- Witness for C9: with an absent raw cache but a perfectly fresh derived
cache entry, the run still performs the raw network fetch. -/
theorem eager_raw_load_before_derived_witness :
    Event.raw_fetch ∈ load_climbs_events ⟨100, none, some ([], 100), []⟩ :=
  (eager_raw_load_before_derived ⟨100, none, some ([], 100), []⟩).2.2.2 rfl

theorem foldl_apply_step (rows : List (Nat × Rat)) (s : List RawClimb) (acc : List Nat) :
    rows.foldl apply_step (acc, s) =
      (acc ++ rows.map (fun dg => routes_avail_per_day s dg), s) := by
  induction rows generalizing acc with
  | nil => simp
  | cons dg rows ih =>
    rw [List.foldl_cons]
    show rows.foldl apply_step (acc ++ [routes_avail_per_day s dg], s) = _
    rw [ih]
    simp

theorem zip_map_self {α β γ : Type} (f : α → β) (g : α × β → γ) (l : List α) :
    (l.zip (l.map f)).map g = l.map (fun a => g (a, f a)) := by
  induction l with
  | nil => rfl
  | cons a l ih => simp [ih]

/-- Claim C10 (confirmed): expanding the climbs table into the
(date, grade, count) table leaves the climbs table unchanged — threading the
object state through every per-cell evaluation of the `df.apply` loop returns
the original state, and the produced table is exactly the pure expansion read
off that original state. -/
theorem expander_frame :
    ∀ s : List RawClimb,
      (load_dates_grades_st s).2 = s ∧
      (load_dates_grades_st s).1 = load_dates_grades s := by
  intro s
  unfold load_dates_grades_st load_dates_grades dates_grades_index date_axis
  cases hmin : (live_starts s).min? with
  | none => simp
  | some dmin =>
    cases hmax : (live_starts s).max? with
    | none => simp
    | some dmax =>
      simp only [foldl_apply_step, List.nil_append]
      refine ⟨trivial, ?_⟩
      rw [zip_map_self]

/-- Claim C1 counterexample: on the one-row table whose single climb matches
the cell `(0, 5)` in grade and interval but has a null `id`, the expander
produces the cell with count `0`, while the number of matching rows is `1`:
the claimed equality fails because `df_tmp.id.count()` skips null ids. -/
theorem count_correctness_cex :
    load_dates_grades [⟨none, 5, some 0, some 0⟩] = [⟨0, 5, 0⟩] ∧
    ([(⟨none, 5, some 0, some 0⟩ : RawClimb)].filter (fun c => matches_cell 0 5 c)).length = 1 ∧
    (0 : Nat) ≠ 1 := by decide

/-- Claim C1 (amended): for every climbs table and every cell of the
expander's output, the cell's `count` equals the number of rows whose grade
equals the cell's grade, whose interval satisfies
`live_start ≤ date ≤ live_end` (both ends inclusive, nulls failing the
comparison), AND whose `id` is non-null. -/
theorem count_correctness_amended :
    ∀ (climbs : List RawClimb), ∀ cell ∈ load_dates_grades climbs,
      cell.count = (climbs.filter
        (fun c => matches_cell cell.date cell.grade c && c.id.isSome)).length := by
  intro climbs cell hcell
  obtain ⟨dg, hdg, rfl⟩ := List.mem_map.mp hcell
  exact routes_avail_eq_length_filter climbs dg.1 dg.2

/-- Witness for amended C1: the cell `(0, 5)` of the expansion of a one-row
table with a non-null id has count `1`, the number of matching rows. -/
theorem count_correctness_amended_witness :
    (⟨0, 5, 1⟩ : Cell).count =
      ([(⟨some 1, 5, some 0, some 0⟩ : RawClimb)].filter
        (fun c => matches_cell 0 5 c && c.id.isSome)).length :=
  count_correctness_amended [⟨some 1, 5, some 0, some 0⟩] ⟨0, 5, 1⟩ (by decide)

/-- Claim C3 counterexample: in the two-row table below, `DAY` is on the
generated date axis and the second record has
`live_start = live_end = DAY` and grade 5, yet the count of cell `(DAY, 5)`
is the same `1` with or without that record — it contributes `0`, not
exactly `1`, because its `id` is null and `df_tmp.id.count()` skips it. -/
theorem boundary_inclusive_cex :
    date_axis [⟨some 1, 5, some 0, some DAY⟩, ⟨none, 5, some DAY, some DAY⟩] = [0, DAY] ∧
    routes_avail_per_day
        [⟨some 1, 5, some 0, some DAY⟩, ⟨none, 5, some DAY, some DAY⟩] (DAY, 5) = 1 ∧
    routes_avail_per_day [⟨some 1, 5, some 0, some DAY⟩] (DAY, 5) = 1 := by decide

/-- Claim C3 (amended): a climb record with a NON-NULL `id` and
`live_start = live_end = d` for a date `d` on the generated date axis
contributes exactly 1 to the `(d, grade)` cell of its grade: both interval
endpoints are inclusive. -/
theorem boundary_inclusive_amended :
    ∀ (climbs : List RawClimb) (c : RawClimb) (d : Nat),
      c.date_live_start = some d → c.date_live_end = some d → c.id.isSome →
      d ∈ date_axis (c :: climbs) →
      routes_avail_per_day (c :: climbs) (d, c.grade) =
        routes_avail_per_day climbs (d, c.grade) + 1 := by
  intro climbs c d h1 h2 h3 _
  have hc : (matches_cell d c.grade c && c.id.isSome) = true := by
    simp [matches_cell, h1, h2, series_le, series_ge, h3]
  rw [routes_avail_eq_length_filter, routes_avail_eq_length_filter]
  simp [List.filter_cons, hc]

/-- Witness for amended C3: a record with `id = some 2` and
`live_start = live_end = DAY` (with `DAY` on the axis) raises the count of
cell `(DAY, 5)` from 1 to 2. -/
theorem boundary_inclusive_amended_witness :
    routes_avail_per_day
        [⟨some 2, 5, some DAY, some DAY⟩, ⟨some 1, 5, some 0, some (2 * DAY)⟩] (DAY, 5) =
      routes_avail_per_day [⟨some 1, 5, some 0, some (2 * DAY)⟩] (DAY, 5) + 1 :=
  boundary_inclusive_amended [⟨some 1, 5, some 0, some (2 * DAY)⟩]
    ⟨some 2, 5, some DAY, some DAY⟩ DAY rfl rfl rfl (by decide)

/-- The claim's reading of "number of calendar days from `a` to `b`
inclusive": how many distinct civil dates the closed timestamp range `[a, b]`
touches.  Stated from the spec's words, for comparison against the
source-derived row count. -/
def calendar_days_inclusive (a b : Nat) : Nat := b / DAY - a / DAY + 1

/-- Claim C2 counterexample: two climbs start at seconds 50000 (calendar
day 0) and 90000 (calendar day 1).  The calendar days from min to max
`live_start` inclusive number 2 and there is 1 distinct grade, but the
expander emits only 1 row: `pd.date_range` anchors at the minimum timestamp
(50000), and `50000 + 86400 > 90000`, so day 1 gets no row. -/
theorem expansion_completeness_cex :
    (live_starts [⟨some 1, 5, some 50000, some 50000⟩,
      ⟨some 2, 5, some 90000, some 90000⟩]).min? = some 50000 ∧
    (live_starts [⟨some 1, 5, some 50000, some 50000⟩,
      ⟨some 2, 5, some 90000, some 90000⟩]).max? = some 90000 ∧
    (load_dates_grades [⟨some 1, 5, some 50000, some 50000⟩,
      ⟨some 2, 5, some 90000, some 90000⟩]).length = 1 ∧
    calendar_days_inclusive 50000 90000 *
      (([⟨some 1, 5, some 50000, some 50000⟩,
        ⟨some 2, 5, some 90000, some 90000⟩] : List RawClimb).map
          (fun c => c.grade)).toFinset.card = 2 ∧
    (1 : Nat) ≠ 2 := by decide

/-- Claim C2 (amended): for every climbs table with minimum `live_start`
`dmin` and maximum `live_start` `dmax`, the expander's row count equals
(number of whole days between `dmin` and `dmax`, plus one — the count of
day-spaced timestamps `pd.date_range` anchors at `dmin`) times the number
of distinct grade values. -/
theorem expansion_completeness_amended :
    ∀ (climbs : List RawClimb) (dmin dmax : Nat),
      (live_starts climbs).min? = some dmin →
      (live_starts climbs).max? = some dmax →
      (load_dates_grades climbs).length =
        ((dmax - dmin) / DAY + 1) * (climbs.map (fun c => c.grade)).toFinset.card := by
  intro climbs dmin dmax hmin hmax
  have hle : dmin ≤ dmax := min?_le_max? hmin hmax
  unfold load_dates_grades dates_grades_index date_axis
  simp only [hmin, hmax, List.length_map]
  rw [length_flatMap_const, length_date_range dmin dmax hle, length_grades_axis]

/-- Witness for amended C2: a single climb starting at second 1000 yields
one date, one grade, and exactly one row. -/
theorem expansion_completeness_amended_witness :
    (load_dates_grades [⟨some 1, 5, some 1000, some 1000⟩]).length =
      ((1000 - 1000) / DAY + 1) *
        (([⟨some 1, 5, some 1000, some 1000⟩] : List RawClimb).map
          (fun c => c.grade)).toFinset.card :=
  expansion_completeness_amended [⟨some 1, 5, some 1000, some 1000⟩] 1000 1000
    (by decide) (by decide)

/-- Claim C7 counterexample: two climbs start at seconds 20000 (calendar
day 0) and 100000 (calendar day 1).  The generated axis is the single
timestamp `[20000]`: it contains no date on calendar day 1 although that day
lies between the minimum and maximum `live_start`, and the maximum
`live_start` itself (100000) is not on the axis — the axis is not "every
calendar day from min to max inclusive". -/
theorem date_axis_cex :
    (live_starts [⟨some 3, 6, some 20000, some 20000⟩,
      ⟨some 4, 6, some 100000, some 100000⟩]).min? = some 20000 ∧
    (live_starts [⟨some 3, 6, some 20000, some 20000⟩,
      ⟨some 4, 6, some 100000, some 100000⟩]).max? = some 100000 ∧
    date_axis [⟨some 3, 6, some 20000, some 20000⟩,
      ⟨some 4, 6, some 100000, some 100000⟩] = [20000] ∧
    (100000 : Nat) ∉ date_axis [⟨some 3, 6, some 20000, some 20000⟩,
      ⟨some 4, 6, some 100000, some 100000⟩] ∧
    (date_axis [⟨some 3, 6, some 20000, some 20000⟩,
      ⟨some 4, 6, some 100000, some 100000⟩]).map (fun d => d / DAY) = [0] ∧
    (100000 : Nat) / DAY = 1 := by decide

/-- Claim C7 (amended): the expander's date axis consists of the timestamps
`dmin + k * DAY` for `k = 0 .. (dmax - dmin) / DAY` where `dmin`/`dmax` are
the minimum/maximum `live_start` — daily spacing with no gaps, anchored at
the minimum `live_start`'s time of day; it is determined by the `live_start`
extremes only, begins at the minimum `live_start`, and no generated date
lies beyond the maximum `live_start` (nor before the minimum), even when
some climb's `live_end` extends past it. -/
theorem date_axis_amended :
    ∀ (climbs : List RawClimb) (dmin dmax : Nat),
      (live_starts climbs).min? = some dmin →
      (live_starts climbs).max? = some dmax →
      date_axis climbs =
        (List.range ((dmax - dmin) / DAY + 1)).map (fun k => dmin + k * DAY)
      ∧ (∀ d ∈ date_axis climbs, dmin ≤ d ∧ d ≤ dmax)
      ∧ dmin ∈ date_axis climbs := by
  intro climbs dmin dmax hmin hmax
  have hle : dmin ≤ dmax := min?_le_max? hmin hmax
  have haxis : date_axis climbs =
      (List.range ((dmax - dmin) / DAY + 1)).map (fun k => dmin + k * DAY) := by
    unfold date_axis
    simp only [hmin, hmax]
    simp [date_range, hle]
  refine ⟨haxis, ?_, ?_⟩
  · intro d hd
    rw [haxis] at hd
    obtain ⟨k, hk, rfl⟩ := List.mem_map.mp hd
    have hk' : k ≤ (dmax - dmin) / DAY := Nat.lt_succ_iff.mp (List.mem_range.mp hk)
    refine ⟨Nat.le_add_right _ _, ?_⟩
    have hkd : k * DAY ≤ dmax - dmin :=
      le_trans (Nat.mul_le_mul_right _ hk') (Nat.div_mul_le_self _ _)
    omega
  · rw [haxis]
    exact List.mem_map.mpr ⟨0, List.mem_range.mpr (Nat.succ_pos _), by simp⟩

/-- Witness for amended C7: climbs starting at 0 and `2 * DAY` generate the
axis `[0, DAY, 2 * DAY]`, beginning at the minimum `live_start`. -/
theorem date_axis_amended_witness :
    date_axis [⟨some 1, 5, some 0, some 0⟩, ⟨some 2, 5, some (2 * DAY), some (2 * DAY)⟩] =
      (List.range ((2 * DAY - 0) / DAY + 1)).map (fun k => 0 + k * DAY) ∧
    (0 : Nat) ∈ date_axis
      [⟨some 1, 5, some 0, some 0⟩, ⟨some 2, 5, some (2 * DAY), some (2 * DAY)⟩] :=
  ⟨(date_axis_amended _ 0 (2 * DAY) (by decide) (by decide)).1,
    (date_axis_amended _ 0 (2 * DAY) (by decide) (by decide)).2.2⟩
